import Mathlib

/-!
# Voxel `DepthCamera` (src/Voxel/DepthCamera.h)

A shallow embedding of the inline part of `DepthCamera`: the constructor, `isInitialized`,
`name`, `id`, `isRunning`, and the parameter store `get<T>` / `set<T>` / `getParam`.

Conventions of the embedding

* A member function is a Lean function on an explicit `State`; what it writes (the logger, the
  `Parameter` objects reached through the shared handles, the hardware behind them) is returned
  in the new state.
* `Ptr<X>` is `Option`; the null pointer is `none`.
* The template argument `T` ranges over an arbitrary type of type names `Ty`, with `Val T` the
  values of `T`.
* `Parameter.h`, `Device.h`, `RegisterProgrammer.h`, `Streamer.h` and the logger are not part of
  the sources. The virtual `ParameterTemplate<T>::get/set`, `typeid(..).name()` and `operator<<`
  are taken as parameters (`Externals`).
-/

set_option linter.dupNamespace false

namespace Voxel

/-! ## Data model -/

/-- Severity passed to `logger(..)`. The header only ever logs at `ERROR`. -/
inductive LogLevel where
  | ERROR
  | WARNING
  | INFO
  | DEBUG
  deriving DecidableEq, Repr

/-- One line written to the logger: `logger(level) << ... << std::endl`. -/
structure LogEntry where
  level : LogLevel
  msg : String
  deriving DecidableEq, Repr

/-- `DevicePtr _device`: only `id()` is used by the header. -/
structure Device where
  id : String
  deriving DecidableEq, Repr

/-- `RegisterProgrammer`: only `isInitialized()` is used by the header. -/
structure RegisterProgrammer where
  isInitialized : Bool
  deriving DecidableEq, Repr

/-- `Streamer`: only `isInitialized()` is used by the header. -/
structure Streamer where
  isInitialized : Bool
  deriving DecidableEq, Repr

/-- `enum FrameCallBackType` (without the counter `CALLBACK_TYPE_COUNT`). -/
inductive FrameCallBackType where
  | CALLBACK_RAW_FRAME_UNPROCESSED
  | CALLBACK_RAW_FRAME_PROCESSED
  | CALLBACK_DEPTH_FRAME
  | CALLBACK_XYZI_POINT_CLOUD_FRAME
  deriving DecidableEq, Repr

/-- Numeric value of an enumerator. -/
def FrameCallBackType.toNat : FrameCallBackType → Nat
  | .CALLBACK_RAW_FRAME_UNPROCESSED => 0
  | .CALLBACK_RAW_FRAME_PROCESSED => 1
  | .CALLBACK_DEPTH_FRAME => 2
  | .CALLBACK_XYZI_POINT_CLOUD_FRAME => 3

/-- `CALLBACK_TYPE_COUNT = 4`. -/
def CALLBACK_TYPE_COUNT : Nat := 4

/-- `#define MAX_FRAME_BUFFERS 2`. -/
def MAX_FRAME_BUFFERS : Nat := 2

/-- `ParameterPtr`: a shared handle to a `Parameter` object, identified by the address of the
object; `none` is the null handle. -/
abbrev ParameterPtr := Option Nat

/-- A `Parameter` object on the heap. `type` is the `T` for which the object is a
`ParameterTemplate<T>` (the only `T` for which `dynamic_cast<ParameterTemplate<T> *>` succeeds);
`st` is whatever the object stores. -/
structure Parameter (Ty : Type) (P : Ty → Type) where
  type : Ty
  st : P type

/-- The data members of `DepthCamera` read or written by the inline member functions.
The frame buffer managers, the callback table, the capture thread and `_threadActive` are used
only by member functions defined outside the header and are left out. -/
structure DepthCamera where
  _device : Device
  _name : String
  _id : String
  /-- `Map<String, ParameterPtr> _parameters`, as an association list read by `List.lookup`. -/
  _parameters : List (String × ParameterPtr)
  _programmer : Option RegisterProgrammer
  _streamer : Option Streamer
  /-- `uint32_t _callBackTypesRegistered = 0`. -/
  _callBackTypesRegistered : Nat
  /-- `bool _running`, declared without an initializer. -/
  _running : Bool
  deriving DecidableEq, Repr

/-- A virtual call made on a `Parameter` object (ghost record, in call order). -/
inductive ParamCall where
  | get (obj : Nat) (refresh : Bool)
  | set (obj : Nat)
  deriving DecidableEq, Repr

/-- Result of `ParameterTemplate<T>::get(value, refresh)`: the returned flag, the content of the
reference argument afterwards, the object and the hardware afterwards. -/
structure ParamGet (V S D : Type) where
  ok : Bool
  value : V
  st : S
  hw : D

/-- Result of `ParameterTemplate<T>::set(value)`. -/
structure ParamSet (S D : Type) where
  ok : Bool
  st : S
  hw : D

/-- What the header uses and does not define: the virtual getter and setter of
`ParameterTemplate<T>`, the text of `typeid(value).name()` and of `<< value`.
A getter or setter is called on one object: it reads and writes what that object stores and
the hardware behind the parameters, and (for the getter) the reference argument; it does not
reach the camera, the logger record kept here, or another `Parameter` object. -/
structure Externals (Ty : Type) (Val P : Ty → Type) (D : Type) where
  paramGet : (T : Ty) → P T → D → Val T → Bool → ParamGet (Val T) (P T) D
  paramSet : (T : Ty) → P T → D → Val T → ParamSet (P T) D
  typeName : Ty → String
  print : (T : Ty) → Val T → String

/-- The camera together with everything its member functions can reach. -/
structure State (Ty : Type) (P : Ty → Type) (D : Type) where
  cam : DepthCamera
  /-- the `Parameter` object at each address -/
  objects : Nat → Parameter Ty P
  /-- the state behind the parameters (registers reached through the programmer) -/
  hw : D
  /-- lines written to the logger, oldest first -/
  log : List LogEntry
  /-- virtual calls made on `Parameter` objects, oldest first -/
  calls : List ParamCall

section Embedding

variable {Ty : Type} [DecidableEq Ty] {Val P : Ty → Type} {D : Type}

/-! ## Constructor and accessors -/

/-- `DepthCamera(const String &name, DevicePtr device)`. The member initializer list sets
`_device`, `_name`, `_id` and the three buffer managers; `_parameters`, `_programmer` and
`_streamer` are default constructed; `_callBackTypesRegistered` has the default member
initializer `0`. `_running` is neither in the list nor has an initializer: it keeps the content
`uninit` of its storage. -/
def DepthCamera.DepthCamera (name : String) (device : Device) (uninit : Bool) : Voxel.DepthCamera :=
  { _device := device
    _name := name
    _id := name ++ "(" ++ device.id ++ ")"
    _parameters := []
    _programmer := none
    _streamer := none
    _callBackTypesRegistered := 0
    _running := uninit }

/-- `inline const String &name() const`. -/
def DepthCamera.name (cam : Voxel.DepthCamera) : String := cam._name

/-- `inline const String &id() const`. -/
def DepthCamera.id (cam : Voxel.DepthCamera) : String := cam._id

/-- `inline bool isRunning() const`. -/
def DepthCamera.isRunning (cam : Voxel.DepthCamera) : Bool := cam._running

/-- A collaborator whose `isInitialized()` was evaluated. -/
inductive Collaborator where
  | programmer
  | streamer
  deriving DecidableEq, Repr

/-- `virtual bool isInitialized() const`:
`_programmer and _programmer->isInitialized() and _streamer and _streamer->isInitialized()`,
evaluated left to right with short circuit. The second component lists the collaborators whose
`isInitialized()` was called. -/
def DepthCamera.isInitialized (cam : Voxel.DepthCamera) : Bool × List Collaborator :=
  match cam._programmer with
  | none => (false, [])
  | some p =>
    if p.isInitialized then
      match cam._streamer with
      | none => (false, [Collaborator.programmer])
      | some st => (st.isInitialized, [Collaborator.programmer, Collaborator.streamer])
    else (false, [Collaborator.programmer])

/-! ## Parameter store -/

/-- `logger(ERROR) << msg << std::endl`. -/
def State.logError (s : State Ty P D) (msg : String) : State Ty P D :=
  { s with log := s.log ++ [{ level := LogLevel.ERROR, msg := msg }] }

/-- A `Parameter` object viewed as a `ParameterTemplate<T>`, when it is one. -/
def Parameter.cast (T : Ty) (obj : Parameter Ty P) : Option (P T) :=
  if h : obj.type = T then some (h ▸ obj.st) else none

/-- `dynamic_cast<ParameterTemplate<T> *>(p->second.get())`: the object viewed as a
`ParameterTemplate<T>`, or null when the handle is null or the object is of another type. -/
def dynamicCast (s : State Ty P D) (T : Ty) (p : ParameterPtr) : Option (Nat × P T) :=
  match p with
  | none => none
  | some a =>
    match (s.objects a).cast T with
    | some st => some (a, st)
    | none => none

/-- The object at address `a` after a virtual call left it in `st`. -/
def State.store (s : State Ty P D) (a : Nat) (T : Ty) (st : P T) : Nat → Parameter Ty P :=
  Function.update s.objects a { type := T, st := st }

/-- The text `_id << "." << name` streamed by `get` and `getParam`, and by `set` for an unknown
parameter. -/
def DepthCamera.paramPath (cam : Voxel.DepthCamera) (name : String) : String :=
  cam._id ++ "." ++ name

/-- The text `this->name() << "(" << _device->id() << ")." << name` streamed by `set` after a
failed cast or a failed setter. -/
def DepthCamera.setParamPath (cam : Voxel.DepthCamera) (name : String) : String :=
  cam.name ++ "(" ++ cam._device.id ++ ")." ++ name

/-- Result of `get<T>`: the returned flag, the reference argument afterwards, the new state. -/
structure GetResult (Ty : Type) (P : Ty → Type) (D V : Type) where
  ok : Bool
  value : V
  st : State Ty P D

/-- Result of `set<T>`. -/
structure SetResult (Ty : Type) (P : Ty → Type) (D : Type) where
  ok : Bool
  st : State Ty P D

/-- `template <typename T> bool DepthCamera::get(const String &name, T &value, bool refresh) const`
with the default `refresh = true` of its declaration. -/
def DepthCamera.get (env : Externals Ty Val P D) (s : State Ty P D) (T : Ty) (name : String)
    (value : Val T) (refresh : Bool := true) : GetResult Ty P D (Val T) :=
  match s.cam._parameters.lookup name with
  | some p =>
    match dynamicCast s T p with
    | none =>
      { ok := false, value := value,
        st := s.logError ("DepthCamera: Invalid value type '" ++ env.typeName T ++
          "' used to set parameter " ++ s.cam.paramPath name) }
    | some (a, obj) =>
      let r := env.paramGet T obj s.hw value refresh
      let s1 : State Ty P D :=
        { s with objects := s.store a T r.st, hw := r.hw,
                 calls := s.calls ++ [ParamCall.get a refresh] }
      if !r.ok then
        { ok := false, value := r.value,
          st := s1.logError ("DepthCamera:Could not get value for parameter " ++
            s.cam.paramPath name) }
      else
        { ok := true, value := r.value, st := s1 }
  | none =>
    { ok := false, value := value,
      st := s.logError ("DepthCamera: Unknown parameter " ++ s.cam.paramPath name) }

/-- `template <typename T> bool DepthCamera::set(const String &name, const T &value)`. -/
def DepthCamera.set (env : Externals Ty Val P D) (s : State Ty P D) (T : Ty) (name : String)
    (value : Val T) : SetResult Ty P D :=
  match s.cam._parameters.lookup name with
  | some p =>
    match dynamicCast s T p with
    | none =>
      { ok := false,
        st := s.logError ("DepthCamera: Invalid value type '" ++ env.typeName T ++
          "' used to set parameter " ++ s.cam.setParamPath name) }
    | some (a, obj) =>
      let r := env.paramSet T obj s.hw value
      let s1 : State Ty P D :=
        { s with objects := s.store a T r.st, hw := r.hw,
                 calls := s.calls ++ [ParamCall.set a] }
      if !r.ok then
        { ok := false,
          st := s1.logError ("DepthCamera: Could not set value " ++ env.print T value ++
            " for parameter " ++ s.cam.setParamPath name) }
      else
        { ok := true, st := s1 }
  | none =>
    { ok := false,
      st := s.logError ("DepthCamera: Unknown parameter " ++ s.cam.paramPath name) }

/-- `const ParameterPtr DepthCamera::getParam(const String &name) const`. -/
def DepthCamera.getParam (s : State Ty P D) (name : String) : ParameterPtr × State Ty P D :=
  match s.cam._parameters.lookup name with
  | some p => (p, s)
  | none => (none, s.logError ("DepthCamera: Unknown parameter " ++ s.cam.paramPath name))

/-- A message mentions a text when the text occurs in it as a contiguous piece. -/
def Mentions (msg part : String) : Prop :=
  ∃ pre post : String, msg = pre ++ part ++ post

end Embedding

/-! ## Callbacks and the capture iteration -/

/-- What a listener returns: `CallbackType` is a `Function<void (...)>`. -/
abbrev CallbackResult := Unit

/-- `typedef Function<void (DepthCamera &camera, const Frame &frame,
FrameCallBackType callBackType)> CallbackType`: a listener receives the camera (by non-const
reference, so the state `S` it can reach is returned as well), the frame and the kind, and
returns `void`. -/
abbrev CallbackType (S Frame : Type) := S → Frame → FrameCallBackType → CallbackResult × S

/-- The four pipeline stages, named after the virtual members that perform them. -/
inductive Stage where
  | _captureRawUnprocessedFrame
  | _processRawFrame
  | _convertToDepthFrame
  | _convertToPointCloudFrame
  deriving DecidableEq, Repr

/-- What is observed in one capture iteration, in execution order. -/
inductive LoopEvent where
  /-- the stage was executed -/
  | stage (st : Stage)
  /-- the listener registered for the kind was called and returned -/
  | listenerReturned (type : FrameCallBackType)
  deriving DecidableEq, Repr

/-- Modelled from the spec: the bodies of `_callbackAndContinue`, `_captureLoop` and of the
stage members are not part of the sources. One iteration is determined by which kinds have a
registered listener (the bits of `callBackTypesToBeCalled`, seeded from
`_callBackTypesRegistered`), which stages produce their output, and what
`_callbackAndContinue` decides after calling the listener of a kind. Frames are not
represented. -/
structure IterationInputs where
  registered : FrameCallBackType → Bool
  stageOk : Stage → Bool
  decision : FrameCallBackType → Bool

/-- Modelled from the spec: `_callbackAndContinue` (declared in the header, body not part of
the sources): "Callback the registered function for 'type' if present and decide whether
continue processing or not"; with no listener registered processing continues unconditionally.
Returns the events and the continue flag. -/
def DepthCamera._callbackAndContinue (it : IterationInputs) (type : FrameCallBackType) :
    List LoopEvent × Bool :=
  if it.registered type then ([LoopEvent.listenerReturned type], it.decision type)
  else ([], true)

/-- Modelled from the spec: one iteration of `_captureLoop` (body not part of the sources): the
four stages "in fixed order"; a stage that fails aborts the iteration; "after each stage
produces output, the Callback Registry is consulted for that stage's corresponding callback
kind" and its answer "decides whether later stages execute for this iteration". -/
def DepthCamera.captureIteration (it : IterationInputs) : List LoopEvent :=
  LoopEvent.stage Stage._captureRawUnprocessedFrame ::
  if !it.stageOk Stage._captureRawUnprocessedFrame then [] else
  (DepthCamera._callbackAndContinue it FrameCallBackType.CALLBACK_RAW_FRAME_UNPROCESSED).1 ++
  if !(DepthCamera._callbackAndContinue it
      FrameCallBackType.CALLBACK_RAW_FRAME_UNPROCESSED).2 then [] else
  LoopEvent.stage Stage._processRawFrame ::
  if !it.stageOk Stage._processRawFrame then [] else
  (DepthCamera._callbackAndContinue it FrameCallBackType.CALLBACK_RAW_FRAME_PROCESSED).1 ++
  if !(DepthCamera._callbackAndContinue it
      FrameCallBackType.CALLBACK_RAW_FRAME_PROCESSED).2 then [] else
  LoopEvent.stage Stage._convertToDepthFrame ::
  if !it.stageOk Stage._convertToDepthFrame then [] else
  (DepthCamera._callbackAndContinue it FrameCallBackType.CALLBACK_DEPTH_FRAME).1 ++
  if !(DepthCamera._callbackAndContinue it FrameCallBackType.CALLBACK_DEPTH_FRAME).2 then []
  else
  LoopEvent.stage Stage._convertToPointCloudFrame ::
  if !it.stageOk Stage._convertToPointCloudFrame then [] else
  (DepthCamera._callbackAndContinue it FrameCallBackType.CALLBACK_XYZI_POINT_CLOUD_FRAME).1

/-- An iteration in which every stage succeeds, every kind has a listener, and
`_callbackAndContinue` decides to stop after the depth frame. -/
def sampleIteration : IterationInputs :=
  { registered := fun _ => true
    stageOk := fun _ => true
    decision := fun type =>
      match type with
      | .CALLBACK_DEPTH_FRAME => false
      | _ => true }

/-! ## Parameters as the specification describes them -/

section CachedParameters

variable {Ty : Type} [DecidableEq Ty] {Val : Ty → Type} {D : Type}

/-- Modelled from the spec: the collaborator behind a parameter (`Parameter.h` and
`RegisterProgrammer.h` are not part of the sources). Writing a value may be rejected ("value out
of hardware-supported range"), a live read may fail ("device read error"). -/
structure Hardware (Ty : Type) (Val : Ty → Type) (D : Type) where
  write : (T : Ty) → D → Val T → Option D
  read : (T : Ty) → D → Option (Val T)

/-- Modelled from the spec: `ParameterTemplate<T>::get` (`Parameter.h` is not part of the
sources). The object stores the cached value. The getter "optionally forc[es] a live re-read
from the device (`refresh=true`) versus returning a cached value (`refresh=false`)" and
propagates a device read error as a failure. -/
def cachedGet (dev : Hardware Ty Val D) (T : Ty) (cached : Val T) (hw : D) (value : Val T)
    (refresh : Bool) : ParamGet (Val T) (Val T) D :=
  if refresh then
    match dev.read T hw with
    | some x => { ok := true, value := x, st := x, hw := hw }
    | none => { ok := false, value := value, st := cached, hw := hw }
  else
    { ok := true, value := cached, st := cached, hw := hw }

/-- Modelled from the spec: `ParameterTemplate<T>::set` (`Parameter.h` is not part of the
sources). The setter "may itself fail (e.g. value out of hardware-supported range)"; when the
collaborator accepts the value it becomes the stored value of the parameter. -/
def cachedSet (dev : Hardware Ty Val D) (T : Ty) (cached : Val T) (hw : D) (value : Val T) :
    ParamSet (Val T) D :=
  match dev.write T hw value with
  | some hw1 => { ok := true, st := value, hw := hw1 }
  | none => { ok := false, st := cached, hw := hw }

/-- Modelled from the spec: the parameters of the specification, each holding its cached value. -/
def cachedParameters (dev : Hardware Ty Val D) (typeName : Ty → String)
    (print : (T : Ty) → Val T → String) : Externals Ty Val Val D :=
  { paramGet := cachedGet dev
    paramSet := cachedSet dev
    typeName := typeName
    print := print }

end CachedParameters

/-! ## A concrete camera -/

/-- Two value types for concrete cameras: `int` and `String`. -/
inductive SampleType where
  | int
  | string
  deriving DecidableEq, Repr

/-- Values of a sample type. -/
@[reducible] def SampleVal : SampleType → Type
  | .int => Int
  | .string => String

/-- Hardware of the sample camera: it accepts integers from 1 to 60 and every string, and
reads back 30 for an integer and fails to read a string. -/
def sampleHardware : Hardware SampleType SampleVal Unit :=
  { write := fun T _ v =>
      match T, v with
      | .int, (n : Int) => if 1 ≤ n ∧ n ≤ 60 then some () else none
      | .string, _ => some ()
    read := fun T _ =>
      match T with
      | .int => some (30 : Int)
      | .string => none }

/-- The externals of the sample camera. -/
def sampleEnv : Externals SampleType SampleVal SampleVal Unit :=
  cachedParameters sampleHardware
    (fun T => match T with | .int => "i" | .string => "Ss")
    (fun T v => match T, v with | .int, (n : Int) => toString n | .string, (t : String) => t)

/-- Objects of the sample camera: an integer parameter holding 25 at address 0, string
parameters holding "normal" elsewhere. -/
def sampleObjects : Nat → Parameter SampleType SampleVal
  | 0 => { type := .int, st := (25 : Int) }
  | _ => { type := .string, st := ("normal" : String) }

/-- A camera named "tof" on device "usb0" with parameters "frameRate" (integer) and "mode"
(string). -/
def sampleState : State SampleType SampleVal Unit :=
  { cam := { DepthCamera.DepthCamera "tof" { id := "usb0" } false with
             _parameters := [("frameRate", some 0), ("mode", some 1)] }
    objects := sampleObjects
    hw := ()
    log := []
    calls := [] }

section Theorems

variable {Ty : Type} [DecidableEq Ty] {Val P : Ty → Type} {D : Type}

theorem Parameter.cast_of_ne (T : Ty) (obj : Parameter Ty P) (h : obj.type ≠ T) :
    obj.cast T = none := by
  simp [Parameter.cast, h]

theorem Parameter.cast_mk (T : Ty) (st : P T) :
    Parameter.cast T ({ type := T, st := st } : Parameter Ty P) = some st := by
  simp [Parameter.cast]

theorem Parameter.cast_eq_some (T : Ty) (obj : Parameter Ty P) (st : P T)
    (h : obj.cast T = some st) : obj = { type := T, st := st } := by
  cases obj with
  | mk ty st0 =>
    unfold Parameter.cast at h
    split at h
    · rename_i hty
      simp only at hty
      subst hty
      simp only [Option.some.injEq] at h
      rw [h]
    · simp at h

theorem Parameter.cast_eq_none (T : Ty) (obj : Parameter Ty P)
    (h : obj.cast T = none) : obj.type ≠ T := by
  intro hty
  cases obj with
  | mk ty st0 =>
    simp only at hty
    subst hty
    rw [Parameter.cast_mk] at h
    simp at h

theorem dynamicCast_of_ne (s : State Ty P D) (T : Ty) (a : Nat)
    (h : (s.objects a).type ≠ T) : dynamicCast s T (some a) = none := by
  simp [dynamicCast, Parameter.cast_of_ne T _ h]

theorem dynamicCast_of_obj (s : State Ty P D) (T : Ty) (a : Nat) (st : P T)
    (h : s.objects a = { type := T, st := st }) : dynamicCast s T (some a) = some (a, st) := by
  simp [dynamicCast, h, Parameter.cast_mk]

theorem dynamicCast_some (s : State Ty P D) (T : Ty) (p : ParameterPtr) (a : Nat) (st : P T)
    (h : dynamicCast s T p = some (a, st)) :
    p = some a ∧ s.objects a = { type := T, st := st } := by
  cases p with
  | none => simp [dynamicCast] at h
  | some b =>
    unfold dynamicCast at h
    simp only at h
    cases hc : (s.objects b).cast T with
    | none => simp [hc] at h
    | some st1 =>
      simp only [hc, Option.some.injEq, Prod.mk.injEq] at h
      obtain ⟨hb, hst⟩ := h
      subst hb
      subst hst
      exact ⟨rfl, Parameter.cast_eq_some T _ _ hc⟩

theorem dynamicCast_none (s : State Ty P D) (T : Ty) (p : ParameterPtr)
    (h : dynamicCast s T p = none) :
    p = none ∨ ∃ a, p = some a ∧ (s.objects a).type ≠ T := by
  cases p with
  | none => exact Or.inl rfl
  | some b =>
    right
    refine ⟨b, rfl, ?_⟩
    unfold dynamicCast at h
    simp only at h
    cases hc : (s.objects b).cast T with
    | none => exact Parameter.cast_eq_none T _ hc
    | some st1 => simp [hc] at h

/-- C1: a key bound to a parameter whose declared type differs from `T` makes `get<T>` and
`set<T>` return false without calling the getter or setter and without changing the camera
(hence its parameter map), any parameter object, the hardware or the caller's out value. -/
theorem C1_type_mismatch_fails_without_mutation (env : Externals Ty Val P D) (s : State Ty P D)
    (T : Ty) (name : String) (a : Nat) (out v : Val T) (refresh : Bool)
    (hkey : s.cam._parameters.lookup name = some (some a))
    (hty : (s.objects a).type ≠ T) :
    ((DepthCamera.get env s T name out refresh).ok = false
      ∧ (DepthCamera.get env s T name out refresh).value = out
      ∧ (DepthCamera.get env s T name out refresh).st.calls = s.calls
      ∧ (DepthCamera.get env s T name out refresh).st.cam = s.cam
      ∧ (DepthCamera.get env s T name out refresh).st.objects = s.objects
      ∧ (DepthCamera.get env s T name out refresh).st.hw = s.hw)
    ∧ ((DepthCamera.set env s T name v).ok = false
      ∧ (DepthCamera.set env s T name v).st.calls = s.calls
      ∧ (DepthCamera.set env s T name v).st.cam = s.cam
      ∧ (DepthCamera.set env s T name v).st.objects = s.objects
      ∧ (DepthCamera.set env s T name v).st.hw = s.hw) := by
  have hc := dynamicCast_of_ne s T a hty
  simp [DepthCamera.get, DepthCamera.set, hkey, hc, State.logError]

/-- C1 at a concrete camera: `set<String>("frameRate", "30")` on the integer parameter fails
and leaves every parameter object as it was. -/
theorem C1_type_mismatch_witness :
    sampleState.cam._parameters.lookup "frameRate" = some (some 0)
    ∧ (sampleState.objects 0).type ≠ SampleType.string
    ∧ (DepthCamera.set sampleEnv sampleState SampleType.string "frameRate" "30").ok = false
    ∧ (DepthCamera.set sampleEnv sampleState SampleType.string "frameRate" "30").st.objects
        = sampleState.objects :=
  ⟨by decide, by decide,
    (C1_type_mismatch_fails_without_mutation sampleEnv sampleState SampleType.string "frameRate"
      0 "" "30" true (by decide) (by decide)).2.1,
    (C1_type_mismatch_fails_without_mutation sampleEnv sampleState SampleType.string "frameRate"
      0 "" "30" true (by decide) (by decide)).2.2.2.2.1⟩

/-! ### Case equations of `get` and `set` -/

/-- The constructor composes `_id` from `_name` and the device id, and registers nothing. -/
theorem constructed_invariant (name : String) (device : Device) (uninit : Bool) :
    (DepthCamera.DepthCamera name device uninit)._id
        = (DepthCamera.DepthCamera name device uninit)._name ++ "(" ++
          (DepthCamera.DepthCamera name device uninit)._device.id ++ ")"
    ∧ ∀ key, (DepthCamera.DepthCamera name device uninit)._parameters.lookup key
        ≠ some none := by
  refine ⟨rfl, ?_⟩
  intro key
  simp [DepthCamera.DepthCamera]

/-- `get` is `const`: the data members of the camera are as before. -/
theorem get_cam (env : Externals Ty Val P D) (s : State Ty P D) (T : Ty) (name : String)
    (out : Val T) (refresh : Bool) : (DepthCamera.get env s T name out refresh).st.cam = s.cam := by
  unfold DepthCamera.get
  split
  · split
    · rfl
    · dsimp only
      split <;> rfl
  · rfl

/-- `set` writes no data member of the camera. -/
theorem set_cam (env : Externals Ty Val P D) (s : State Ty P D) (T : Ty) (name : String)
    (v : Val T) : (DepthCamera.set env s T name v).st.cam = s.cam := by
  unfold DepthCamera.set
  split
  · split
    · rfl
    · dsimp only
      split <;> rfl
  · rfl

theorem get_unknown (env : Externals Ty Val P D) (s : State Ty P D) (T : Ty) (name : String)
    (out : Val T) (refresh : Bool) (hl : s.cam._parameters.lookup name = none) :
    DepthCamera.get env s T name out refresh =
      { ok := false, value := out,
        st := s.logError ("DepthCamera: Unknown parameter " ++ s.cam.paramPath name) } := by
  simp [DepthCamera.get, hl]

theorem get_mismatch (env : Externals Ty Val P D) (s : State Ty P D) (T : Ty) (name : String)
    (out : Val T) (refresh : Bool) (p : ParameterPtr)
    (hl : s.cam._parameters.lookup name = some p) (hc : dynamicCast s T p = none) :
    DepthCamera.get env s T name out refresh =
      { ok := false, value := out,
        st := s.logError ("DepthCamera: Invalid value type '" ++ env.typeName T ++
          "' used to set parameter " ++ s.cam.paramPath name) } := by
  simp [DepthCamera.get, hl, hc]

theorem get_getter_fails (env : Externals Ty Val P D) (s : State Ty P D) (T : Ty)
    (name : String) (out : Val T) (refresh : Bool) (p : ParameterPtr) (a : Nat) (obj : P T)
    (hl : s.cam._parameters.lookup name = some p) (hc : dynamicCast s T p = some (a, obj))
    (hr : (env.paramGet T obj s.hw out refresh).ok = false) :
    DepthCamera.get env s T name out refresh =
      { ok := false, value := (env.paramGet T obj s.hw out refresh).value,
        st := State.logError
          { s with objects := s.store a T (env.paramGet T obj s.hw out refresh).st,
                   hw := (env.paramGet T obj s.hw out refresh).hw,
                   calls := s.calls ++ [ParamCall.get a refresh] }
          ("DepthCamera:Could not get value for parameter " ++ s.cam.paramPath name) } := by
  simp [DepthCamera.get, hl, hc, hr]

theorem get_getter_succeeds (env : Externals Ty Val P D) (s : State Ty P D) (T : Ty)
    (name : String) (out : Val T) (refresh : Bool) (p : ParameterPtr) (a : Nat) (obj : P T)
    (hl : s.cam._parameters.lookup name = some p) (hc : dynamicCast s T p = some (a, obj))
    (hr : (env.paramGet T obj s.hw out refresh).ok = true) :
    DepthCamera.get env s T name out refresh =
      { ok := true, value := (env.paramGet T obj s.hw out refresh).value,
        st := { s with objects := s.store a T (env.paramGet T obj s.hw out refresh).st,
                       hw := (env.paramGet T obj s.hw out refresh).hw,
                       calls := s.calls ++ [ParamCall.get a refresh] } } := by
  simp [DepthCamera.get, hl, hc, hr]

theorem set_unknown (env : Externals Ty Val P D) (s : State Ty P D) (T : Ty) (name : String)
    (v : Val T) (hl : s.cam._parameters.lookup name = none) :
    DepthCamera.set env s T name v =
      { ok := false,
        st := s.logError ("DepthCamera: Unknown parameter " ++ s.cam.paramPath name) } := by
  simp [DepthCamera.set, hl]

theorem set_mismatch (env : Externals Ty Val P D) (s : State Ty P D) (T : Ty) (name : String)
    (v : Val T) (p : ParameterPtr)
    (hl : s.cam._parameters.lookup name = some p) (hc : dynamicCast s T p = none) :
    DepthCamera.set env s T name v =
      { ok := false,
        st := s.logError ("DepthCamera: Invalid value type '" ++ env.typeName T ++
          "' used to set parameter " ++ s.cam.setParamPath name) } := by
  simp [DepthCamera.set, hl, hc]

theorem set_setter_fails (env : Externals Ty Val P D) (s : State Ty P D) (T : Ty)
    (name : String) (v : Val T) (p : ParameterPtr) (a : Nat) (obj : P T)
    (hl : s.cam._parameters.lookup name = some p) (hc : dynamicCast s T p = some (a, obj))
    (hr : (env.paramSet T obj s.hw v).ok = false) :
    DepthCamera.set env s T name v =
      { ok := false,
        st := State.logError
          { s with objects := s.store a T (env.paramSet T obj s.hw v).st,
                   hw := (env.paramSet T obj s.hw v).hw,
                   calls := s.calls ++ [ParamCall.set a] }
          ("DepthCamera: Could not set value " ++ env.print T v ++ " for parameter " ++
            s.cam.setParamPath name) } := by
  simp [DepthCamera.set, hl, hc, hr]

theorem set_setter_succeeds (env : Externals Ty Val P D) (s : State Ty P D) (T : Ty)
    (name : String) (v : Val T) (p : ParameterPtr) (a : Nat) (obj : P T)
    (hl : s.cam._parameters.lookup name = some p) (hc : dynamicCast s T p = some (a, obj))
    (hr : (env.paramSet T obj s.hw v).ok = true) :
    DepthCamera.set env s T name v =
      { ok := true,
        st := { s with objects := s.store a T (env.paramSet T obj s.hw v).st,
                       hw := (env.paramSet T obj s.hw v).hw,
                       calls := s.calls ++ [ParamCall.set a] } } := by
  simp [DepthCamera.set, hl, hc, hr]

/-- C2: `get<T>` fails for an absent key, fails for a parameter of another declared type, and
otherwise makes exactly one call of the parameter's getter, with the same refresh flag, and
returns that call's flag and out value; hence it succeeds exactly when the key is bound to a
parameter of type `T` whose getter succeeds. Omitting the refresh flag means `refresh = true`. -/
theorem C2_get_delegates_to_getter (env : Externals Ty Val P D) (s : State Ty P D) (T : Ty)
    (name : String) (out : Val T) (refresh : Bool) :
    (s.cam._parameters.lookup name = none →
        (DepthCamera.get env s T name out refresh).ok = false)
    ∧ (∀ a, s.cam._parameters.lookup name = some (some a) → (s.objects a).type ≠ T →
        (DepthCamera.get env s T name out refresh).ok = false)
    ∧ (∀ a obj, s.cam._parameters.lookup name = some (some a) →
        s.objects a = { type := T, st := obj } →
        (DepthCamera.get env s T name out refresh).ok
            = (env.paramGet T obj s.hw out refresh).ok
        ∧ (DepthCamera.get env s T name out refresh).value
            = (env.paramGet T obj s.hw out refresh).value
        ∧ (DepthCamera.get env s T name out refresh).st.calls
            = s.calls ++ [ParamCall.get a refresh]
        ∧ (DepthCamera.get env s T name out refresh).st.objects a
            = { type := T, st := (env.paramGet T obj s.hw out refresh).st }
        ∧ (DepthCamera.get env s T name out refresh).st.hw
            = (env.paramGet T obj s.hw out refresh).hw)
    ∧ ((DepthCamera.get env s T name out refresh).ok = true ↔
        ∃ a obj, s.cam._parameters.lookup name = some (some a)
          ∧ s.objects a = { type := T, st := obj }
          ∧ (env.paramGet T obj s.hw out refresh).ok = true)
    ∧ DepthCamera.get env s T name out = DepthCamera.get env s T name out true := by
  refine ⟨?_, ?_, ?_, ?_, rfl⟩
  · intro hl
    rw [get_unknown env s T name out refresh hl]
  · intro a hl hty
    rw [get_mismatch env s T name out refresh _ hl (dynamicCast_of_ne s T a hty)]
  · intro a obj hl ho
    have hc := dynamicCast_of_obj s T a obj ho
    cases hr : (env.paramGet T obj s.hw out refresh).ok with
    | false =>
      rw [get_getter_fails env s T name out refresh _ a obj hl hc hr]
      simp [State.logError, State.store]
    | true =>
      rw [get_getter_succeeds env s T name out refresh _ a obj hl hc hr]
      simp [State.store]
  · constructor
    · intro h
      cases hl : s.cam._parameters.lookup name with
      | none =>
        rw [get_unknown env s T name out refresh hl] at h
        simp at h
      | some p =>
        cases hc : dynamicCast s T p with
        | none =>
          rw [get_mismatch env s T name out refresh p hl hc] at h
          simp at h
        | some r =>
          obtain ⟨a, obj⟩ := r
          obtain ⟨hp, ho⟩ := dynamicCast_some s T p a obj hc
          subst hp
          refine ⟨a, obj, rfl, ho, ?_⟩
          cases hr : (env.paramGet T obj s.hw out refresh).ok with
          | false =>
            rw [get_getter_fails env s T name out refresh _ a obj hl hc hr] at h
            simp at h
          | true => rfl
    · rintro ⟨a, obj, hl, ho, hr⟩
      rw [get_getter_succeeds env s T name out refresh _ a obj hl
        (dynamicCast_of_obj s T a obj ho) hr]

/-- C2 at a concrete camera: `get<int>("frameRate", out)` with the default refresh re-reads the
device and yields 30; with `refresh = false` it yields the stored 25. -/
theorem C2_get_witness :
    sampleState.cam._parameters.lookup "frameRate" = some (some 0)
    ∧ sampleState.objects 0 = { type := SampleType.int, st := (25 : Int) }
    ∧ (DepthCamera.get sampleEnv sampleState SampleType.int "frameRate" (0 : Int) false).value
        = (sampleEnv.paramGet SampleType.int (25 : Int) sampleState.hw (0 : Int) false).value
    ∧ (DepthCamera.get sampleEnv sampleState SampleType.int "frameRate" (0 : Int) false).value
        = (25 : Int)
    ∧ (DepthCamera.get sampleEnv sampleState SampleType.int "frameRate" (0 : Int)).value
        = (30 : Int) :=
  ⟨by decide, rfl,
    ((C2_get_delegates_to_getter sampleEnv sampleState SampleType.int "frameRate" (0 : Int)
      false).2.2.1 0 (25 : Int) (by decide) rfl).2.1,
    by decide, by decide⟩

/-- C4: `set<T>` succeeds exactly when the key is bound to a parameter of declared type `T`
whose setter accepts the value; the lookup and the type check fail in the cases in which those
of `get` fail; for an absent key no setter is called; the only virtual call ever made is the
setter of the parameter bound to the key; every other parameter object is left as it was and
the camera, hence the set of keys of its parameter map, is unchanged. For a key bound to a
parameter of type `T` the setter is called exactly once with the value: the flag returned, the
object and the hardware afterwards are those of that call. When the cast fails nothing is
called and nothing but the log changes. -/
theorem C4_set_delegates_to_setter (env : Externals Ty Val P D) (s : State Ty P D) (T : Ty)
    (name : String) (v : Val T) :
    ((DepthCamera.set env s T name v).ok = true ↔
        ∃ a obj, s.cam._parameters.lookup name = some (some a)
          ∧ s.objects a = { type := T, st := obj }
          ∧ (env.paramSet T obj s.hw v).ok = true)
    ∧ (∀ (out : Val T) (refresh : Bool) (p : ParameterPtr),
        (s.cam._parameters.lookup name = none
          ∨ (s.cam._parameters.lookup name = some p ∧ dynamicCast s T p = none)) →
        (DepthCamera.set env s T name v).ok = false
        ∧ (DepthCamera.get env s T name out refresh).ok = false)
    ∧ (s.cam._parameters.lookup name = none →
        (DepthCamera.set env s T name v).ok = false
        ∧ (DepthCamera.set env s T name v).st.calls = s.calls
        ∧ (DepthCamera.set env s T name v).st.objects = s.objects
        ∧ (DepthCamera.set env s T name v).st.hw = s.hw)
    ∧ ((DepthCamera.set env s T name v).st.calls = s.calls
        ∨ ∃ a, s.cam._parameters.lookup name = some (some a)
            ∧ (DepthCamera.set env s T name v).st.calls = s.calls ++ [ParamCall.set a])
    ∧ (∀ b, s.cam._parameters.lookup name ≠ some (some b) →
        (DepthCamera.set env s T name v).st.objects b = s.objects b)
    ∧ (∀ b, ((DepthCamera.set env s T name v).st.objects b).type = (s.objects b).type)
    ∧ (DepthCamera.set env s T name v).st.cam = s.cam
    ∧ (∀ key, (DepthCamera.set env s T name v).st.cam._parameters.lookup key
        = s.cam._parameters.lookup key)
    ∧ (∀ a obj, s.cam._parameters.lookup name = some (some a) →
        s.objects a = { type := T, st := obj } →
        (DepthCamera.set env s T name v).ok = (env.paramSet T obj s.hw v).ok
        ∧ (DepthCamera.set env s T name v).st.calls = s.calls ++ [ParamCall.set a]
        ∧ (DepthCamera.set env s T name v).st.objects a
            = { type := T, st := (env.paramSet T obj s.hw v).st }
        ∧ (DepthCamera.set env s T name v).st.hw = (env.paramSet T obj s.hw v).hw)
    ∧ (∀ p, s.cam._parameters.lookup name = some p → dynamicCast s T p = none →
        (DepthCamera.set env s T name v).ok = false
        ∧ (DepthCamera.set env s T name v).st.calls = s.calls
        ∧ (DepthCamera.set env s T name v).st.objects = s.objects
        ∧ (DepthCamera.set env s T name v).st.hw = s.hw) := by
  have hmain :
      ((DepthCamera.set env s T name v).ok = true ↔
        ∃ a obj, s.cam._parameters.lookup name = some (some a)
          ∧ s.objects a = { type := T, st := obj }
          ∧ (env.paramSet T obj s.hw v).ok = true)
      ∧ ((DepthCamera.set env s T name v).st.calls = s.calls
        ∨ ∃ a, s.cam._parameters.lookup name = some (some a)
            ∧ (DepthCamera.set env s T name v).st.calls = s.calls ++ [ParamCall.set a])
      ∧ (∀ b, s.cam._parameters.lookup name ≠ some (some b) →
        (DepthCamera.set env s T name v).st.objects b = s.objects b)
      ∧ (∀ b, ((DepthCamera.set env s T name v).st.objects b).type = (s.objects b).type)
      ∧ (DepthCamera.set env s T name v).st.cam = s.cam := by
    cases hl : s.cam._parameters.lookup name with
    | none =>
      rw [set_unknown env s T name v hl]
      simp [State.logError]
    | some p =>
      cases hc : dynamicCast s T p with
      | none =>
        rw [set_mismatch env s T name v p hl hc]
        refine ⟨?_, Or.inl rfl, fun _ _ => rfl, fun _ => rfl, rfl⟩
        constructor
        · intro h
          simp at h
        · rintro ⟨a, obj, hp, ho, _⟩
          simp only [Option.some.injEq] at hp
          subst hp
          rw [dynamicCast_of_obj s T a obj ho] at hc
          simp at hc
      | some r =>
        obtain ⟨a, obj⟩ := r
        obtain ⟨hp, ho⟩ := dynamicCast_some s T p a obj hc
        subst hp
        have hupd : ∀ (st1 : P T) (b : Nat), some (some a) ≠ some (some b) →
            s.store a T st1 b = s.objects b := by
          intro st1 b hb
          have hne : b ≠ a := by
            intro h
            exact hb (by rw [h])
          simp [State.store, Function.update_noteq hne]
        have htype : ∀ (st1 : P T) (b : Nat), (s.store a T st1 b).type = (s.objects b).type := by
          intro st1 b
          by_cases hb : b = a
          · subst hb
            simp [State.store, ho]
          · simp [State.store, Function.update_noteq hb]
        cases hr : (env.paramSet T obj s.hw v).ok with
        | false =>
          rw [set_setter_fails env s T name v _ a obj hl hc hr]
          refine ⟨?_, Or.inr ⟨a, rfl, rfl⟩, fun b hb => hupd _ b hb, fun b => htype _ b, rfl⟩
          constructor
          · intro h
            simp at h
          · rintro ⟨a1, obj1, hp, ho1, hr1⟩
            simp only [Option.some.injEq] at hp
            subst hp
            rw [ho] at ho1
            simp only [Parameter.mk.injEq, heq_eq_eq, true_and] at ho1
            subst ho1
            rw [hr] at hr1
            simp at hr1
        | true =>
          rw [set_setter_succeeds env s T name v _ a obj hl hc hr]
          refine ⟨?_, Or.inr ⟨a, rfl, rfl⟩, fun b hb => hupd _ b hb, fun b => htype _ b, rfl⟩
          constructor
          · intro _
            exact ⟨a, obj, rfl, ho, hr⟩
          · intro _
            rfl
  obtain ⟨h1, h2, h3, h4, h5⟩ := hmain
  refine ⟨h1, ?_, ?_, h2, h3, h4, h5, ?_, ?_, ?_⟩
  · intro out refresh p h
    rcases h with hl | ⟨hl, hc⟩
    · rw [set_unknown env s T name v hl, get_unknown env s T name out refresh hl]
      exact ⟨rfl, rfl⟩
    · rw [set_mismatch env s T name v p hl hc, get_mismatch env s T name out refresh p hl hc]
      exact ⟨rfl, rfl⟩
  · intro hl
    rw [set_unknown env s T name v hl]
    simp [State.logError]
  · intro key
    rw [h5]
  · intro a obj hl ho
    have hc := dynamicCast_of_obj s T a obj ho
    cases hr : (env.paramSet T obj s.hw v).ok with
    | false =>
      rw [set_setter_fails env s T name v _ a obj hl hc hr]
      simp [State.logError, State.store]
    | true =>
      rw [set_setter_succeeds env s T name v _ a obj hl hc hr]
      simp [State.store]
  · intro p hl hc
    rw [set_mismatch env s T name v p hl hc]
    simp [State.logError]

/-- C4 at a concrete camera: `set<int>("frameRate", 30)` succeeds, calls the setter of the
object at address 0, which then holds 30, and leaves the string parameter at address 1 as it
was; `set<int>("frameRate", 500)` is rejected by the setter. -/
theorem C4_set_witness :
    sampleState.cam._parameters.lookup "frameRate" ≠ some (some 1)
    ∧ (DepthCamera.set sampleEnv sampleState SampleType.int "frameRate" (30 : Int)).st.objects 1
        = sampleState.objects 1
    ∧ (DepthCamera.set sampleEnv sampleState SampleType.int "frameRate" (30 : Int)).ok = true
    ∧ (DepthCamera.set sampleEnv sampleState SampleType.int "frameRate" (500 : Int)).ok = false
    ∧ sampleState.cam._parameters.lookup "frameRate" = some (some 0)
    ∧ sampleState.objects 0 = { type := SampleType.int, st := (25 : Int) }
    ∧ (DepthCamera.set sampleEnv sampleState SampleType.int "frameRate" (30 : Int)).st.calls
        = sampleState.calls ++ [ParamCall.set 0]
    ∧ (DepthCamera.set sampleEnv sampleState SampleType.int "frameRate" (30 : Int)).st.objects 0
        = { type := SampleType.int,
            st := (sampleEnv.paramSet SampleType.int (25 : Int) sampleState.hw (30 : Int)).st } :=
  ⟨by decide,
    (C4_set_delegates_to_setter sampleEnv sampleState SampleType.int "frameRate"
      (30 : Int)).2.2.2.2.1 1 (by decide),
    by decide, by decide, by decide, rfl,
    ((C4_set_delegates_to_setter sampleEnv sampleState SampleType.int "frameRate"
      (30 : Int)).2.2.2.2.2.2.2.2.1 0 (25 : Int) (by decide) rfl).2.1,
    ((C4_set_delegates_to_setter sampleEnv sampleState SampleType.int "frameRate"
      (30 : Int)).2.2.2.2.2.2.2.2.1 0 (25 : Int) (by decide) rfl).2.2.1⟩

/-- The cached getter on a parameter holding `v`: `get<T>(name, out, false)` yields `v`. -/
theorem cached_get_of_obj {Ty : Type} [DecidableEq Ty] {Val : Ty → Type} {D : Type}
    (dev : Hardware Ty Val D) (typeName : Ty → String) (print : (T : Ty) → Val T → String)
    (s : State Ty Val D) (T : Ty) (name : String) (a : Nat) (v out : Val T)
    (hl : s.cam._parameters.lookup name = some (some a))
    (ho : s.objects a = { type := T, st := v }) :
    (DepthCamera.get (cachedParameters dev typeName print) s T name out false).ok = true
    ∧ (DepthCamera.get (cachedParameters dev typeName print) s T name out false).value = v := by
  have hg : ((cachedParameters dev typeName print).paramGet T v s.hw out false).ok = true := by
    simp [cachedParameters, cachedGet]
  rw [get_getter_succeeds _ s T name out false (some a) a v hl (dynamicCast_of_obj s T a v ho) hg]
  simp [cachedParameters, cachedGet]

/-- C3: with parameters as the specification describes them (a cached value, a setter that
stores the value unless the collaborator rejects it, a getter that returns the cached value when
`refresh = false`), a successful `set<T>(key, v)` followed by `get<T>(key, v2, false)` succeeds
and yields `v2 = v`. -/
theorem C3_set_get_round_trip {Ty : Type} [DecidableEq Ty] {Val : Ty → Type} {D : Type}
    (dev : Hardware Ty Val D) (typeName : Ty → String) (print : (T : Ty) → Val T → String)
    (s : State Ty Val D) (T : Ty) (name : String) (v out : Val T)
    (hset : (DepthCamera.set (cachedParameters dev typeName print) s T name v).ok = true) :
    (DepthCamera.get (cachedParameters dev typeName print)
        (DepthCamera.set (cachedParameters dev typeName print) s T name v).st
        T name out false).ok = true
    ∧ (DepthCamera.get (cachedParameters dev typeName print)
        (DepthCamera.set (cachedParameters dev typeName print) s T name v).st
        T name out false).value = v := by
  cases hl : s.cam._parameters.lookup name with
  | none =>
    rw [set_unknown _ s T name v hl] at hset
    simp at hset
  | some p =>
    cases hc : dynamicCast s T p with
    | none =>
      rw [set_mismatch _ s T name v p hl hc] at hset
      simp at hset
    | some r =>
      obtain ⟨a, obj⟩ := r
      cases hr : ((cachedParameters dev typeName print).paramSet T obj s.hw v).ok with
      | false =>
        rw [set_setter_fails _ s T name v p a obj hl hc hr] at hset
        simp at hset
      | true =>
        obtain ⟨hp, _⟩ := dynamicCast_some s T p a obj hc
        subst hp
        have hst : ((cachedParameters dev typeName print).paramSet T obj s.hw v).st = v := by
          simp only [cachedParameters, cachedSet] at hr ⊢
          cases hw : dev.write T s.hw v with
          | none => simp [hw] at hr
          | some hw1 => simp
        rw [set_setter_succeeds _ s T name v _ a obj hl hc hr]
        exact cached_get_of_obj dev typeName print _ T name a v out hl
          (by simp [State.store, hst])

/-- C3 at a concrete camera: `set<int>("frameRate", 30)` succeeds and the following
`get<int>("frameRate", out, false)` yields 30. -/
theorem C3_round_trip_witness :
    (DepthCamera.set sampleEnv sampleState SampleType.int "frameRate" (30 : Int)).ok = true
    ∧ (DepthCamera.get sampleEnv
        (DepthCamera.set sampleEnv sampleState SampleType.int "frameRate" (30 : Int)).st
        SampleType.int "frameRate" (0 : Int) false).value = (30 : Int) :=
  ⟨by decide,
    (C3_set_get_round_trip sampleHardware _ _ sampleState SampleType.int "frameRate" (30 : Int)
      (0 : Int) (by decide)).2⟩

end Theorems

section AccessorTheorems

variable {Ty : Type} {P : Ty → Type} {D : Type}

/-- C5: `getParam` returns the handle stored under the key, and the null handle for an absent
key; the result does not depend on the parameter objects (there is no type check), so a key
bound to an object yields the handle of that object, not null, whatever its declared type; the
camera and the objects are unchanged. -/
theorem C5_getParam_returns_stored_handle (s : State Ty P D) (name : String) :
    (∀ p, s.cam._parameters.lookup name = some p → (DepthCamera.getParam s name).1 = p)
    ∧ (s.cam._parameters.lookup name = none → (DepthCamera.getParam s name).1 = none)
    ∧ (∀ a, s.cam._parameters.lookup name = some (some a) →
        (DepthCamera.getParam s name).1 = some a ∧ (DepthCamera.getParam s name).1 ≠ none)
    ∧ ((∀ key, s.cam._parameters.lookup key ≠ some none) →
        s.cam._parameters.lookup name ≠ none → (DepthCamera.getParam s name).1 ≠ none)
    ∧ (∀ s2 : State Ty P D, s2.cam = s.cam →
        (DepthCamera.getParam s2 name).1 = (DepthCamera.getParam s name).1)
    ∧ (DepthCamera.getParam s name).2.cam = s.cam
    ∧ (DepthCamera.getParam s name).2.objects = s.objects := by
  refine ⟨?_, ?_, ?_, ?_, ?_, ?_, ?_⟩
  · intro p hl
    simp [DepthCamera.getParam, hl]
  · intro hl
    simp [DepthCamera.getParam, hl]
  · intro a hl
    simp [DepthCamera.getParam, hl]
  · intro hnn hl
    cases hp : s.cam._parameters.lookup name with
    | none => exact absurd hp hl
    | some p =>
      cases p with
      | none => exact absurd hp (hnn name)
      | some a => simp [DepthCamera.getParam, hp]
  · intro s2 h2
    unfold DepthCamera.getParam
    rw [h2]
    cases s.cam._parameters.lookup name <;> rfl
  · unfold DepthCamera.getParam
    cases s.cam._parameters.lookup name <;> rfl
  · unfold DepthCamera.getParam
    cases s.cam._parameters.lookup name <;> rfl

/-- C5 at a concrete camera: `getParam("mode")` is the handle of the object at address 1. -/
theorem C5_getParam_witness :
    sampleState.cam._parameters.lookup "mode" = some (some 1)
    ∧ (DepthCamera.getParam sampleState "mode").1 = some 1
    ∧ (DepthCamera.getParam sampleState "gain").1 = none :=
  ⟨by decide,
    ((C5_getParam_returns_stored_handle sampleState "mode").2.2.1 1 (by decide)).1,
    (C5_getParam_returns_stored_handle sampleState "gain").2.1 (by decide)⟩

/-- C6: `isInitialized()` is true exactly when the programmer is present and initialized and
the streamer is present and initialized; with an absent collaborator it is false and that
collaborator's `isInitialized()` is not among the calls made. -/
theorem C6_isInitialized_iff (cam : DepthCamera) :
    (cam.isInitialized.1 = true ↔
        (∃ p, cam._programmer = some p ∧ p.isInitialized = true)
        ∧ (∃ st, cam._streamer = some st ∧ st.isInitialized = true))
    ∧ (cam._programmer = none →
        cam.isInitialized.1 = false ∧ cam.isInitialized.2 = [])
    ∧ (cam._streamer = none →
        cam.isInitialized.1 = false ∧ Collaborator.streamer ∉ cam.isInitialized.2) := by
  unfold DepthCamera.isInitialized
  cases hp : cam._programmer with
  | none => simp
  | some p =>
    cases hs : cam._streamer with
    | none =>
      cases hpi : p.isInitialized <;> simp
    | some st =>
      cases hpi : p.isInitialized <;> simp [hpi]

/-- C6 at a concrete camera: a freshly constructed camera has no programmer and is not
initialized. -/
theorem C6_isInitialized_witness :
    (DepthCamera.DepthCamera "tof" { id := "usb0" } false)._programmer = none
    ∧ (DepthCamera.DepthCamera "tof" { id := "usb0" } false).isInitialized.1 = false :=
  ⟨rfl, ((C6_isInitialized_iff (DepthCamera.DepthCamera "tof" { id := "usb0" } false)).2.1
    rfl).1⟩

/-- C7: a camera constructed from `name` and `device` has `name() = name` and
`id() = name + "(" + device.id() + ")"`; the identity that `set` composes from `name()` and
`_device->id()` is `id()`, so `set` names a parameter in its messages exactly as `get` and
`getParam` do. -/
theorem C7_constructed_identity (name : String) (device : Device) (uninit : Bool) :
    (DepthCamera.DepthCamera name device uninit).name = name
    ∧ (DepthCamera.DepthCamera name device uninit).id = name ++ "(" ++ device.id ++ ")"
    ∧ (DepthCamera.DepthCamera name device uninit).name ++ "(" ++
        (DepthCamera.DepthCamera name device uninit)._device.id ++ ")"
        = (DepthCamera.DepthCamera name device uninit).id
    ∧ (∀ param, (DepthCamera.DepthCamera name device uninit).setParamPath param
        = (DepthCamera.DepthCamera name device uninit).paramPath param) := by
  refine ⟨rfl, rfl, rfl, ?_⟩
  intro param
  simp only [DepthCamera.setParamPath, DepthCamera.paramPath, DepthCamera.name,
    DepthCamera.DepthCamera]
  rw [show (")." : String) = ")" ++ "." from by decide]
  simp only [String.append_assoc]

theorem mentions_of_eq (msg pre part post : String) (h : msg = pre ++ part ++ post) :
    Mentions msg part :=
  ⟨pre, post, h⟩

end AccessorTheorems

section ReportingTheorems

variable {Ty : Type} [DecidableEq Ty] {Val P : Ty → Type} {D : Type}

/-- C9 on the code: the constructor leaves `_running` as it finds it, so a camera constructed
in storage that holds `true` reports `isRunning() = true` although `start()` was never called;
its mask of registered callback kinds is 0. -/
theorem C9_new_camera_running_is_uninitialized :
    (DepthCamera.DepthCamera "tof" { id := "usb0" } true).isRunning = true
    ∧ (DepthCamera.DepthCamera "tof" { id := "usb0" } true)._callBackTypesRegistered = 0
    ∧ (∀ (name : String) (device : Device) (uninit : Bool),
        (DepthCamera.DepthCamera name device uninit).isRunning = uninit
        ∧ (DepthCamera.DepthCamera name device uninit)._callBackTypesRegistered = 0) :=
  ⟨rfl, rfl, fun _ _ _ => ⟨rfl, rfl⟩⟩

end ReportingTheorems

/-- C10 as stated fails on the listener type: a listener returns `void`, so no reading of what
listeners return tells a continue vote from a stop vote. -/
theorem C10_listener_returns_no_vote :
    ¬ ∃ (S Frame : Type) (vote : CallbackResult → Bool) (f g : CallbackType S Frame)
        (camera : S) (frame : Frame),
        vote (f camera frame FrameCallBackType.CALLBACK_DEPTH_FRAME).1 = true
        ∧ vote (g camera frame FrameCallBackType.CALLBACK_DEPTH_FRAME).1 = false := by
  rintro ⟨S, Frame, vote, f, g, camera, frame, hf, hg⟩
  have h : (f camera frame FrameCallBackType.CALLBACK_DEPTH_FRAME).1
      = (g camera frame FrameCallBackType.CALLBACK_DEPTH_FRAME).1 := rfl
  rw [h, hg] at hf
  exact Bool.noConfusion hf

/-- C10, amended: the stop decision is the result of `_callbackAndContinue`. In every iteration
in which `_callbackAndContinue` for `CALLBACK_DEPTH_FRAME` returns false, the depth listener was
called and returned, and `_convertToPointCloudFrame` is not executed; whenever the depth stage
produced its frame, the return of the depth listener is part of the iteration. -/
theorem C10_stop_after_depth_skips_point_cloud (it : IterationInputs)
    (hstop : (DepthCamera._callbackAndContinue it
      FrameCallBackType.CALLBACK_DEPTH_FRAME).2 = false) :
    LoopEvent.stage Stage._convertToPointCloudFrame ∉ DepthCamera.captureIteration it
    ∧ (DepthCamera._callbackAndContinue it FrameCallBackType.CALLBACK_DEPTH_FRAME).1
        = [LoopEvent.listenerReturned FrameCallBackType.CALLBACK_DEPTH_FRAME]
    ∧ (LoopEvent.stage Stage._convertToDepthFrame ∈ DepthCamera.captureIteration it →
        it.stageOk Stage._convertToDepthFrame = true →
        LoopEvent.listenerReturned FrameCallBackType.CALLBACK_DEPTH_FRAME
          ∈ DepthCamera.captureIteration it) := by
  have hreg : it.registered FrameCallBackType.CALLBACK_DEPTH_FRAME = true := by
    cases h : it.registered FrameCallBackType.CALLBACK_DEPTH_FRAME with
    | false => simp [DepthCamera._callbackAndContinue, h] at hstop
    | true => rfl
  have hdec : it.decision FrameCallBackType.CALLBACK_DEPTH_FRAME = false := by
    simpa [DepthCamera._callbackAndContinue, hreg] using hstop
  refine ⟨?_, ?_, ?_⟩
  · simp only [DepthCamera.captureIteration, DepthCamera._callbackAndContinue, hreg, hdec]
    cases it.stageOk Stage._captureRawUnprocessedFrame <;>
    cases it.stageOk Stage._processRawFrame <;>
    cases it.stageOk Stage._convertToDepthFrame <;>
    cases it.registered FrameCallBackType.CALLBACK_RAW_FRAME_UNPROCESSED <;>
    cases it.registered FrameCallBackType.CALLBACK_RAW_FRAME_PROCESSED <;>
    cases it.decision FrameCallBackType.CALLBACK_RAW_FRAME_UNPROCESSED <;>
    cases it.decision FrameCallBackType.CALLBACK_RAW_FRAME_PROCESSED <;>
    simp
  · simp [DepthCamera._callbackAndContinue, hreg]
  · intro hmem hok
    revert hmem
    simp only [DepthCamera.captureIteration, DepthCamera._callbackAndContinue, hreg, hdec, hok]
    cases it.stageOk Stage._captureRawUnprocessedFrame <;>
    cases it.stageOk Stage._processRawFrame <;>
    cases it.registered FrameCallBackType.CALLBACK_RAW_FRAME_UNPROCESSED <;>
    cases it.registered FrameCallBackType.CALLBACK_RAW_FRAME_PROCESSED <;>
    cases it.decision FrameCallBackType.CALLBACK_RAW_FRAME_UNPROCESSED <;>
    cases it.decision FrameCallBackType.CALLBACK_RAW_FRAME_PROCESSED <;>
    simp

/-- C10, amended, at a concrete iteration: all stages succeed and the decision after the depth
frame is to stop. -/
theorem C10_stop_after_depth_witness :
    (DepthCamera._callbackAndContinue sampleIteration
      FrameCallBackType.CALLBACK_DEPTH_FRAME).2 = false
    ∧ LoopEvent.stage Stage._convertToPointCloudFrame
        ∉ DepthCamera.captureIteration sampleIteration
    ∧ LoopEvent.listenerReturned FrameCallBackType.CALLBACK_DEPTH_FRAME
        ∈ DepthCamera.captureIteration sampleIteration :=
  ⟨by decide,
    (C10_stop_after_depth_skips_point_cloud sampleIteration (by decide)).1,
    by decide⟩

end Voxel
